import Mathlib

/-!
Shallow embedding of the msdss-data-api dataset access-control and
query-translation layer (handlers.py, managers.py, routers.py, tools.py,
defaults.py), together with theorems settling the frozen claims about it.

The external Store collaborator (msdss_base_database.Database) is modelled
as the information the core actually consults: table existence and column
schemas.  Store writes are modelled as an explicit effect trace, so that
theorems can speak about which storage calls a manager operation performs
and with which arguments.  Pass-through query parameters that the core
never inspects (select, group_by, aggregate, order_by, limit, offset) are
elided from the embedding; the guard logic never reads them.
-/

namespace MsdssDataApi

/-- Record: a Python dict with string keys and (opaque, modelled as string) values. -/
abbrev Rec := List (String × String)

/-- Keys of a record, in insertion order (Python dict.keys()). -/
def recKeys (r : Rec) : List String := r.map Prod.fst

/-- First value bound to a key in a record. -/
def recGet (r : Rec) (k : String) : Option String :=
  (r.find? (fun p => p.1 == k)).map Prod.snd

/-- Python dict assignment d[k] = v: replace the binding if the key exists, append otherwise. -/
def recSet (r : Rec) (k v : String) : Rec :=
  if r.any (fun p => p.1 == k) then
    r.map (fun p => if p.1 == k then (k, v) else p)
  else
    r ++ [(k, v)]

/-- Store abstraction: a table catalog mapping each table name to its column names.
This is exactly the read-only information the guard layer consults
(Database.has_table and Database._get_table(...).c). -/
abbrev Store := List (String × List String)

/-- Database.has_table. -/
def hasTable (db : Store) (t : String) : Bool := db.any (fun p => p.1 == t)

/-- Column names of a table (empty when the table is absent). -/
def tableColumns (db : Store) (t : String) : List String :=
  ((db.find? (fun p => p.1 == t)).map Prod.snd).getD []

/-- Errors surfaced by the core: HTTPException(status, detail) raised by the
guard layer, plus the two Python-level exceptions reachable in the embedded
code paths (shlex ValueError and list IndexError / None AttributeError). -/
inductive ApiError
  | http (status : Nat) (detail : Option String)
  | valueError (msg : String)
  | indexError
  | attributeError
deriving DecidableEq, Repr

/-- HTTPException(status_code=401) raised by handle_restrictions and
handle_permissions: note that the source passes no detail argument. -/
def forbiddenErr : ApiError := ApiError.http 401 none

/-- HTTPException(404) from handle_read. -/
def notFoundErr : ApiError := ApiError.http 404 (some "Dataset not found")

/-- HTTPException(400) from handle_write. -/
def alreadyExistsErr : ApiError := ApiError.http 400 (some "Dataset already exists")

/-- HTTPException(400) from handle_delete when where is absent without delete_all. -/
def missingWhereErr : ApiError := ApiError.http 400 (some "Parameter where is required")

/-- HTTPException(400) from the wrong-token-count branch of handle_where. -/
def malformedWhereErr : ApiError :=
  ApiError.http 400 (some "Parameter where is formatted incorrectly - should be in the form of \"column operator value\" e.g. \"col < 3\"")

/-- Supported operator set. Modelled from the spec: the constant
DEFAULT_SUPPORTED_OPERATORS is imported from the external msdss_base_database
collaborator, whose source is not part of this repository; the spec fixes the
set as listed in its section 6. -/
def DEFAULT_SUPPORTED_OPERATORS : List String :=
  ["=", "!=", ">", ">=", "<", "<=", "LIKE", "ILIKE", "NOTLIKE", "NOTILIKE",
   "CONTAINS", "STARTSWITH", "ENDSWITH"]

/-- HTTPException(400) from the unsupported-operator branch of handle_where. -/
def unsupportedOpErr (op : String) : ApiError :=
  ApiError.http 400 (some ("Operator \x27" ++ op ++ "\x27 is not supported - supported operators are: "
    ++ String.intercalate ", " DEFAULT_SUPPORTED_OPERATORS))

def DEFAULT_METADATA_TABLE : String := "data"
def DEFAULT_USER_TABLE : String := "user"
def DEFAULT_RESTRICTED_TABLES : List String := [DEFAULT_METADATA_TABLE, DEFAULT_USER_TABLE]

/-- Column names of DEFAULT_METADATA_COLUMNS (the schema details beyond names are
owned by the Store and elided). -/
def DEFAULT_METADATA_COLUMN_NAMES : List String :=
  ["id", "dataset", "title", "description", "tags", "source", "created_by", "created_at", "updated_at"]

/-! shlex.split (POSIX mode, whitespace_split), used by the managers to tokenize
raw where strings.  Shell-style quoting: single quotes are literal, double quotes
allow backslash-escaping of the double quote and the backslash, a backslash
outside quotes escapes the next character, and an unterminated quote or a
trailing escape raises ValueError. -/

def squoteChar : Char := Char.ofNat 39
def dquoteChar : Char := Char.ofNat 34
def bslashChar : Char := Char.ofNat 92

def isShlexSpace (c : Char) : Bool :=
  c == ' ' || c == Char.ofNat 9 || c == Char.ofNat 13 || c == Char.ofNat 10

/-- Lexer mode of the shlex state machine. -/
inductive LexMode
  | normal
  | normalEsc
  | single
  | double
  | doubleEsc
deriving DecidableEq, Repr

/-- Emit the pending token: shlex emits when the token text is nonempty or
quotes were seen (so that an empty quoted string produces an empty token). -/
def slexFlush (cur : List Char) (quoted : Bool) (acc : List String) : List String :=
  if cur.isEmpty && !quoted then acc else String.mk cur.reverse :: acc

def slexAux : List Char → LexMode → List Char → Bool → List String → Except ApiError (List String)
  | [], .normal, cur, quoted, acc => .ok (slexFlush cur quoted acc).reverse
  | [], .normalEsc, _, _, _ => .error (.valueError "No escaped character")
  | [], .doubleEsc, _, _, _ => .error (.valueError "No escaped character")
  | [], .single, _, _, _ => .error (.valueError "No closing quotation")
  | [], .double, _, _, _ => .error (.valueError "No closing quotation")
  | c :: cs, .normal, cur, quoted, acc =>
    if isShlexSpace c then slexAux cs .normal [] false (slexFlush cur quoted acc)
    else if c == squoteChar then slexAux cs .single cur true acc
    else if c == dquoteChar then slexAux cs .double cur true acc
    else if c == bslashChar then slexAux cs .normalEsc cur quoted acc
    else slexAux cs .normal (c :: cur) quoted acc
  | c :: cs, .normalEsc, cur, quoted, acc => slexAux cs .normal (c :: cur) quoted acc
  | c :: cs, .single, cur, quoted, acc =>
    if c == squoteChar then slexAux cs .normal cur quoted acc
    else slexAux cs .single (c :: cur) quoted acc
  | c :: cs, .double, cur, quoted, acc =>
    if c == dquoteChar then slexAux cs .normal cur quoted acc
    else if c == bslashChar then slexAux cs .doubleEsc cur quoted acc
    else slexAux cs .double (c :: cur) quoted acc
  | c :: cs, .doubleEsc, cur, quoted, acc =>
    if c == dquoteChar || c == bslashChar then slexAux cs .double (c :: cur) quoted acc
    else slexAux cs .double (c :: bslashChar :: cur) quoted acc

/-- shlex.split on one raw where string. -/
def shlexSplit (s : String) : Except ApiError (List String) :=
  slexAux s.data .normal [] false []

/-- The list comprehension where = [split(w) for w in where] over a required list. -/
def splitWhereList (ws : List String) : Except ApiError (List (List String)) :=
  ws.mapM shlexSplit

/-- The guarded comprehension where = [split(w) for w in where] if where else where:
None stays None and an empty list is kept as-is (Python truthiness). -/
def splitWhereOpt (ws : Option (List String)) : Except ApiError (Option (List (List String))) :=
  match ws with
  | none => .ok none
  | some [] => .ok (some [])
  | some l => (splitWhereList l).map some

/-- Python str.upper(), modelled as ASCII uppercasing of the character list
(the supported operator tokens are all ASCII). -/
def strUpper (s : String) : String := String.mk (s.data.map Char.toUpper)

/-- Operator token of a tokenized clause (w[1]; total via getD, only consulted
after the three-token check has passed). -/
def whereOp (w : List String) : String := (w.get? 1).getD ""

/-- Test of w[1].upper() in DEFAULT_SUPPORTED_OPERATORS. -/
def opSupported (w : List String) : Bool :=
  DEFAULT_SUPPORTED_OPERATORS.contains (strUpper (whereOp w))

/-- DataHandler: the per-operation guard configuration (handlers.py).
The database attribute is elided; the Store is passed to each check explicitly. -/
structure DataHandler where
  permitted_tables : List String := []
  restricted_tables : List String := DEFAULT_RESTRICTED_TABLES
deriving DecidableEq, Repr

/-- DataHandler.handle_restrictions: 401 when the dataset is restricted. -/
def DataHandler.handle_restrictions (h : DataHandler) (dataset : String) : Except ApiError Unit :=
  if h.restricted_tables.contains dataset then .error forbiddenErr else .ok ()

/-- DataHandler.handle_permissions: 401 when a non-empty permitted list exists
and the dataset is not in it. -/
def DataHandler.handle_permissions (h : DataHandler) (dataset : String) : Except ApiError Unit :=
  if h.permitted_tables.length > 0 && !(h.permitted_tables.contains dataset) then
    .error forbiddenErr
  else .ok ()

/-- DataHandler.handle_where: skip when the list is falsy, then the
wrong-token-count check over all clauses, then the first unsupported operator. -/
def DataHandler.handle_where (where_list : Option (List (List String))) : Except ApiError Unit :=
  match where_list with
  | none => .ok ()
  | some l =>
    if l.isEmpty then .ok ()
    else if l.any (fun w => w.length != 3) then .error malformedWhereErr
    else
      match l.find? (fun w => !(opSupported w)) with
      | some w => .error (unsupportedOpErr (whereOp w))
      | none => .ok ()

/-- DataHandler.handle_read: restrictions, then permissions, then 404 when
the Store reports the table absent. -/
def DataHandler.handle_read (h : DataHandler) (db : Store) (dataset : String) : Except ApiError Unit := do
  h.handle_restrictions dataset
  h.handle_permissions dataset
  if !(hasTable db dataset) then Except.error notFoundErr else pure ()

/-- DataHandler.handle_write: restrictions, then permissions, then 400 when
the Store reports the table already present. -/
def DataHandler.handle_write (h : DataHandler) (db : Store) (dataset : String) : Except ApiError Unit := do
  h.handle_restrictions dataset
  h.handle_permissions dataset
  if hasTable db dataset then Except.error alreadyExistsErr else pure ()

/-- DataHandler.handle_delete: handle_read, then the missing-where check
(tripped only when where_list is None and delete_all is false), else handle_where. -/
def DataHandler.handle_delete (h : DataHandler) (db : Store) (dataset : String)
    (where_list : Option (List (List String))) (delete_all : Bool) : Except ApiError Unit := do
  h.handle_read db dataset
  if !delete_all && where_list.isNone then Except.error missingWhereErr
  else DataHandler.handle_where where_list

/-- HTTPException(400) from the unknown-column branch of handle_update. -/
def unknownColumnErr (k : String) : ApiError :=
  ApiError.http 400 (some ("column \x27" ++ k ++ "\x27 not found"))

/-- DataHandler.handle_update: restrictions, permissions, handle_read (which
repeats both), handle_where, then the first update key absent from the
target schema raises the unknown-column error. -/
def DataHandler.handle_update (h : DataHandler) (db : Store) (dataset : String)
    (data : Rec) (where_list : Option (List (List String))) : Except ApiError Unit := do
  h.handle_restrictions dataset
  h.handle_permissions dataset
  h.handle_read db dataset
  DataHandler.handle_where where_list
  match (recKeys data).find? (fun k => !((tableColumns db dataset).contains k)) with
  | some k => Except.error (unknownColumnErr k)
  | none => pure ()

/-- Store write effects: the arguments the managers hand to the Store
(Database.insert / delete / drop_table / update / create_table). -/
inductive StoreEff
  | insertRows (table : String) (rows : List Rec)
  | deleteRows (table : String) (whereList : Option (List (List String))) (where_boolean : String)
  | dropTable (table : String)
  | updateRows (table : String) (whereList : List (List String)) (values : Rec)
  | createTable (table : String) (columns : List String)
deriving DecidableEq, Repr

/-- Effect of a Store write on the table catalog (row contents are owned by
the external Store and not tracked; inserts create an absent table with the
first row's keys as columns, mirroring the Database.insert behaviour the
create flow relies on). -/
def applyEff (db : Store) : StoreEff → Store
  | .insertRows t rows => if hasTable db t then db else db ++ [(t, recKeys (rows.head?.getD []))]
  | .deleteRows _ _ _ => db
  | .dropTable t => db.filter (fun p => p.1 != t)
  | .updateRows _ _ _ => db
  | .createTable t cols => if hasTable db t then db else db ++ [(t, cols)]

def applyEffs (db : Store) (effs : List StoreEff) : Store := effs.foldl applyEff db

/-- Resulting Store state of a manager call: on an exception the call aborts
before (or between) its writes, leaving the catalog as the emitted prefix of
effects dictates; all embedded operations emit their writes only after every
guard has passed, so an error leaves the Store unchanged. -/
def runWrite (db : Store) (r : Except ApiError (List StoreEff)) : Store :=
  match r with
  | .ok effs => applyEffs db effs
  | .error _ => db

/-- DataManager (managers.py): holds the optional handler; the database
attribute is elided in favour of passing the Store explicitly. -/
structure DataManager where
  handler : Option DataHandler := some {}
deriving DecidableEq, Repr

/-- DataManager.create: handle_restrictions, handle_write, then Database.insert. -/
def DataManager.create (m : DataManager) (db : Store) (dataset : String) (data : List Rec) :
    Except ApiError (List StoreEff) := do
  if let some h := m.handler then
    h.handle_restrictions dataset
    h.handle_write db dataset
  pure [StoreEff.insertRows dataset data]

/-- DataManager.insert: handle_restrictions, handle_read, then Database.insert. -/
def DataManager.insert (m : DataManager) (db : Store) (dataset : String) (data : List Rec) :
    Except ApiError (List StoreEff) := do
  if let some h := m.handler then
    h.handle_restrictions dataset
    h.handle_read db dataset
  pure [StoreEff.insertRows dataset data]

/-- DataManager.get: split the raw where strings, handle_read, handle_where,
then Database.select.  The select call itself is a read; the returned value
here is the validated, tokenized where list handed to it (the pass-through
projection/sort/aggregate parameters are elided, see the module docstring). -/
def DataManager.get (m : DataManager) (db : Store) (dataset : String)
    (whereS : Option (List String)) : Except ApiError (Option (List (List String))) := do
  let w ← splitWhereOpt whereS
  if let some h := m.handler then
    h.handle_read db dataset
    DataHandler.handle_where w
  pure w

/-- DataManager.delete: split, handle_delete, then either Database.drop_table
or Database.delete with the parsed clauses. -/
def DataManager.delete (m : DataManager) (db : Store) (dataset : String)
    (whereS : Option (List String)) (where_boolean : String) (delete_all : Bool) :
    Except ApiError (List StoreEff) := do
  let w ← splitWhereOpt whereS
  if let some h := m.handler then
    h.handle_delete db dataset w delete_all
  if delete_all then pure [StoreEff.dropTable dataset]
  else pure [StoreEff.deleteRows dataset w where_boolean]

/-- DataManager.update: split the (required) where strings, handle_update,
then Database.update. -/
def DataManager.update (m : DataManager) (db : Store) (dataset : String)
    (data : Rec) (whereS : List String) : Except ApiError (List StoreEff) := do
  let w ← splitWhereList whereS
  if let some h := m.handler then
    h.handle_update db dataset data (some w)
  pure [StoreEff.updateRows dataset w data]

/-- DataManager.get_columns: handle_read, then Database.columns (the count of
columns of the dataset). -/
def DataManager.get_columns (m : DataManager) (db : Store) (dataset : String) :
    Except ApiError Nat := do
  if let some h := m.handler then
    h.handle_read db dataset
  pure (tableColumns db dataset).length

/-- DataManager.get_rows: handle_read, then Database.rows (the row count is
owned by the external Store and elided). -/
def DataManager.get_rows (m : DataManager) (db : Store) (dataset : String) :
    Except ApiError Unit := do
  if let some h := m.handler then
    h.handle_read db dataset
  pure ()

/-- MetadataManager (managers.py): the ledger-table name and its privileged
DataManager. -/
structure MetadataManager where
  table : String
  dm : DataManager
deriving DecidableEq, Repr

/-- A metadata descriptor argument: a single dict or a list of dicts. -/
inductive MData
  | one (r : Rec)
  | many (rs : List Rec)
deriving DecidableEq, Repr

/-- MetadataManager.__init__: create the ledger table when absent, then set
the data manager handler permitted list to exactly the ledger table and the
restricted list to empty (a mutation of the handler object; the sharing
consequences are modelled in the handler-heap layer below). -/
def MetadataManager.init (data_manager : DataManager) (table : String)
    (columns : List String) (db : Store) : Except ApiError (MetadataManager × List StoreEff) :=
  let effs := if !(hasTable db table) then [StoreEff.createTable table columns] else []
  match data_manager.handler with
  | none => .error .attributeError
  | some _ =>
    .ok ({ table := table,
           dm := { handler := some { permitted_tables := [table], restricted_tables := [] } } },
         effs)

/-- MetadataManager.create: wrap a single dict in a list, force the dataset
key of element 0, then insert through the privileged DataManager. -/
def MetadataManager.create (mm : MetadataManager) (db : Store) (dataset : String)
    (mdata : MData) : Except ApiError (List StoreEff) :=
  let rows := match mdata with | .one r => [r] | .many rs => rs
  match rows with
  | [] => .error .indexError
  | r0 :: rest => DataManager.insert mm.dm db mm.table (recSet r0 "dataset" dataset :: rest)

/-- MetadataManager.get: equality filter on the dataset name over the ledger. -/
def MetadataManager.get (mm : MetadataManager) (db : Store) (dataset : String) :
    Except ApiError (Option (List (List String))) :=
  DataManager.get mm.dm db mm.table (some ["dataset = " ++ dataset])

/-- MetadataManager.delete: filtered delete of the dataset record. -/
def MetadataManager.delete (mm : MetadataManager) (db : Store) (dataset : String) :
    Except ApiError (List StoreEff) :=
  DataManager.delete mm.dm db mm.table (some ["dataset = " ++ dataset]) "AND" false

/-- MetadataManager.update: filtered update of the dataset record. -/
def MetadataManager.update (mm : MetadataManager) (db : Store) (dataset : String)
    (data : Rec) : Except ApiError (List StoreEff) :=
  DataManager.update mm.dm db mm.table data ["dataset = " ++ dataset]

/-- MetadataManager.search: get over the ledger table with the caller's filter. -/
def MetadataManager.search (mm : MetadataManager) (db : Store)
    (whereS : Option (List String)) : Except ApiError (Option (List (List String))) :=
  DataManager.get mm.dm db mm.table whereS

/-- MetadataManager.updated_at: convenience update setting only updated_at. -/
def MetadataManager.updated_at (mm : MetadataManager) (db : Store) (dataset : String)
    (dt : String) : Except ApiError (List StoreEff) :=
  MetadataManager.update mm db dataset [("updated_at", dt)]

/-! Router wiring (routers.py).  A registered route is modelled by its
operation kind, HTTP verb, path template and (for the routes that build a
dataset DataManager) the resolved restricted-table list. -/

inductive HttpVerb
  | post
  | get
  | put
  | del
deriving DecidableEq, Repr

inductive RouteKind
  | create
  | delete
  | idRoute
  | insert
  | metadata
  | metadata_update
  | query
  | search
  | update
deriving DecidableEq, Repr

structure Route where
  kind : RouteKind
  verb : HttpVerb
  path : String
  restricted : Option (List String)
deriving DecidableEq, Repr

/-- Keyword arguments of get_data_router with their source defaults (the
prefix/tags/kwargs/get_current_user parameters, which the registration logic
never branches on, are elided). -/
structure RouterArgs where
  restricted_tables : List String := DEFAULT_RESTRICTED_TABLES
  enable_create_route : Bool := true
  enable_delete_route : Bool := true
  enable_id_route : Bool := true
  enable_insert_route : Bool := true
  enable_metadata_route : Bool := true
  enable_metadata_update_route : Bool := true
  enable_query_route : Bool := true
  enable_search_route : Bool := true
  enable_update_route : Bool := true
  create_route_path : String := "/"
  delete_route_path : String := "/"
  id_route_path : String := "/{dataset}/id/{id}"
  insert_route_path : String := "/{dataset}/insert"
  metadata_route_path : String := "/{dataset}/metadata"
  metadata_update_route_path : String := "/{dataset}/metadata"
  query_route_path : String := "/{dataset}"
  search_route_path : String := "/"
  update_route_path : String := "/{dataset}"
  create_route_restricted_tables : Option (List String) := none
  delete_route_restricted_tables : Option (List String) := none
  id_route_restricted_tables : Option (List String) := none
  insert_route_restricted_tables : Option (List String) := none
  query_route_restricted_tables : Option (List String) := none
  update_route_restricted_tables : Option (List String) := none
deriving DecidableEq, Repr

/-- Python x if x else restricted_tables: a None or empty per-route list
falls back to the router-wide default. -/
def resolveRestrictedTables (o : Option (List String)) (dflt : List String) : List String :=
  match o with
  | some (x :: xs) => x :: xs
  | _ => dflt

/-- get_data_router: resolve per-route restricted lists, then register each
route in source order, each guarded by its enable flag. -/
def get_data_router (a : RouterArgs) : List Route :=
  let createRT := resolveRestrictedTables a.create_route_restricted_tables a.restricted_tables
  let deleteRT := resolveRestrictedTables a.delete_route_restricted_tables a.restricted_tables
  let idRT := resolveRestrictedTables a.id_route_restricted_tables a.restricted_tables
  let insertRT := resolveRestrictedTables a.insert_route_restricted_tables a.restricted_tables
  let queryRT := resolveRestrictedTables a.query_route_restricted_tables a.restricted_tables
  let updateRT := resolveRestrictedTables a.update_route_restricted_tables a.restricted_tables
  (if a.enable_create_route then [⟨.create, .post, a.create_route_path, some createRT⟩] else [])
  ++ (if a.enable_delete_route then [⟨.delete, .del, a.delete_route_path, some deleteRT⟩] else [])
  ++ (if a.enable_id_route then [⟨.idRoute, .get, a.id_route_path, some idRT⟩] else [])
  ++ (if a.enable_insert_route then [⟨.insert, .put, a.insert_route_path, some insertRT⟩] else [])
  ++ (if a.enable_metadata_route then [⟨.metadata, .get, a.metadata_route_path, none⟩] else [])
  ++ (if a.enable_metadata_update_route then
        [⟨.metadata_update, .put, a.metadata_update_route_path, none⟩] else [])
  ++ (if a.enable_query_route then [⟨.query, .get, a.query_route_path, some queryRT⟩] else [])
  ++ (if a.enable_search_route then [⟨.search, .get, a.search_route_path, none⟩] else [])
  ++ (if a.enable_update_route then [⟨.update, .put, a.update_route_path, some updateRT⟩] else [])

/-! Handler-heap layer: Python default arguments are evaluated once at
function-definition time, so DataManager.__init__ carries one shared
DataHandler() instance used by every DataManager constructed without an
explicit handler.  The heap maps handler references to handler states;
MetadataManager.__init__ mutates the referenced handler in place. -/

structure HandlerHeap where
  cells : List (Nat × DataHandler)
deriving DecidableEq, Repr

def HandlerHeap.read (hp : HandlerHeap) (r : Nat) : DataHandler :=
  ((hp.cells.find? (fun p => p.1 == r)).map Prod.snd).getD {}

def HandlerHeap.write (hp : HandlerHeap) (r : Nat) (v : DataHandler) : HandlerHeap :=
  { cells := (r, v) :: hp.cells.filter (fun p => p.1 != r) }

/-- Reference to the single DataHandler() default-argument object of
DataManager.__init__. -/
def defaultHandlerRef : Nat := 0

/-- Heap state right after managers.py is imported: the shared default
handler exists with permitted_tables=[] and the default restricted tables. -/
def moduleHeap : HandlerHeap := { cells := [(defaultHandlerRef, {})] }

/-- A DataManager object as a holder of its handler reference. -/
structure DataManagerRef where
  handlerRef : Nat
deriving DecidableEq, Repr

/-- DataManager(database=db) with the handler argument omitted: the instance
aliases the shared default handler. -/
def mkDefaultDataManager : DataManagerRef := { handlerRef := defaultHandlerRef }

/-- View a referenced manager as the value-level DataManager its operations run with. -/
def derefDataManager (hp : HandlerHeap) (r : DataManagerRef) : DataManager :=
  { handler := some (hp.read r.handlerRef) }

/-- The handler mutation performed by MetadataManager.__init__ on its data
manager's handler object. -/
def metadataManagerInitHeap (hp : HandlerHeap) (r : DataManagerRef) (table : String) :
    HandlerHeap :=
  hp.write r.handlerRef { permitted_tables := [table], restricted_tables := [] }

/-- tools.create_metadata_manager_func: builds DataManager(database=database)
(default handler, hence the shared one) and wraps it in a MetadataManager,
mutating the shared handler. -/
def create_metadata_manager_heap (hp : HandlerHeap) : HandlerHeap × DataManagerRef :=
  let dmr := mkDefaultDataManager
  (metadataManagerInitHeap hp dmr DEFAULT_METADATA_TABLE, dmr)

/-- The filter-validation composite the managers run over raw where strings:
tokenize each clause with shlex.split, then handle_where over the token lists
(managers.py runs exactly this pair in get, delete and update). -/
def validateWhere (ws : Option (List String)) : Except ApiError (Option (List (List String))) := do
  let w ← splitWhereOpt ws
  DataHandler.handle_where w
  pure w

/-- Character that shlex passes through unchanged outside quotes: not
whitespace, not a quote, not the escape character. -/
def plainChar (c : Char) : Bool :=
  !(isShlexSpace c) && c != squoteChar && c != dquoteChar && c != bslashChar

/-- Nonempty token of plain characters: joining such tokens with single spaces
and re-splitting recovers them exactly. -/
def plainTok (s : String) : Bool := !(s.data.isEmpty) && s.data.all plainChar

/-- The detail payload of an error (None for the bare 401s and the modelled
Python-level exceptions). -/
def errDetail : ApiError → Option String
  | .http _ d => d
  | _ => none

/-- Whether an error carries a nonempty human-readable reason string. -/
def errHasReason (e : ApiError) : Bool :=
  match errDetail e with
  | some s => !(s.data.isEmpty)
  | none => false

/-! Basic lemmas about the guard checks. -/

lemma contains_of_mem {l : List String} {a : String} (h : a ∈ l) : l.contains a = true := by
  simpa using h

lemma contains_eq_false_of_not_mem {l : List String} {a : String} (h : a ∉ l) :
    l.contains a = false := by
  simpa using h

lemma handle_restrictions_mem {h : DataHandler} {d : String} (hres : d ∈ h.restricted_tables) :
    h.handle_restrictions d = .error forbiddenErr := by
  unfold DataHandler.handle_restrictions
  rw [contains_of_mem hres]
  simp

lemma handle_restrictions_ok {h : DataHandler} {d : String} (hres : d ∉ h.restricted_tables) :
    h.handle_restrictions d = .ok () := by
  unfold DataHandler.handle_restrictions
  rw [contains_eq_false_of_not_mem hres]
  simp

lemma handle_permissions_ok {h : DataHandler} {d : String}
    (hperm : h.permitted_tables = [] ∨ d ∈ h.permitted_tables) :
    h.handle_permissions d = .ok () := by
  unfold DataHandler.handle_permissions
  rcases hperm with hnil | hmem
  · rw [hnil]
    simp
  · rw [contains_of_mem hmem]
    simp

lemma handle_permissions_forbidden {h : DataHandler} {d : String}
    (hne : h.permitted_tables ≠ []) (hnm : d ∉ h.permitted_tables) :
    h.handle_permissions d = .error forbiddenErr := by
  unfold DataHandler.handle_permissions
  rw [contains_eq_false_of_not_mem hnm]
  have : h.permitted_tables.length > 0 := List.length_pos.mpr hne
  simp [this]

lemma handle_read_restricted {h : DataHandler} {d : String} (db : Store)
    (hres : d ∈ h.restricted_tables) :
    h.handle_read db d = .error forbiddenErr := by
  simp [DataHandler.handle_read, handle_restrictions_mem hres, bind, Except.bind]

lemma handle_read_not_permitted {h : DataHandler} {d : String} (db : Store)
    (hres : d ∉ h.restricted_tables) (hne : h.permitted_tables ≠ []) (hnm : d ∉ h.permitted_tables) :
    h.handle_read db d = .error forbiddenErr := by
  simp [DataHandler.handle_read, handle_restrictions_ok hres,
    handle_permissions_forbidden hne hnm, bind, Except.bind]

lemma handle_read_notFound {h : DataHandler} {d : String} {db : Store}
    (hres : d ∉ h.restricted_tables) (hperm : h.permitted_tables = [] ∨ d ∈ h.permitted_tables)
    (hex : hasTable db d = false) :
    h.handle_read db d = .error notFoundErr := by
  simp [DataHandler.handle_read, handle_restrictions_ok hres, handle_permissions_ok hperm,
    hex, bind, Except.bind]

lemma handle_read_ok {h : DataHandler} {d : String} {db : Store}
    (hres : d ∉ h.restricted_tables) (hperm : h.permitted_tables = [] ∨ d ∈ h.permitted_tables)
    (hex : hasTable db d = true) :
    h.handle_read db d = .ok () := by
  simp [DataHandler.handle_read, handle_restrictions_ok hres, handle_permissions_ok hperm,
    hex, bind, Except.bind, pure, Except.pure]

lemma handle_write_exists {h : DataHandler} {d : String} {db : Store}
    (hres : d ∉ h.restricted_tables) (hperm : h.permitted_tables = [] ∨ d ∈ h.permitted_tables)
    (hex : hasTable db d = true) :
    h.handle_write db d = .error alreadyExistsErr := by
  simp [DataHandler.handle_write, handle_restrictions_ok hres, handle_permissions_ok hperm,
    hex, bind, Except.bind]

lemma handle_write_ok {h : DataHandler} {d : String} {db : Store}
    (hres : d ∉ h.restricted_tables) (hperm : h.permitted_tables = [] ∨ d ∈ h.permitted_tables)
    (hex : hasTable db d = false) :
    h.handle_write db d = .ok () := by
  simp [DataHandler.handle_write, handle_restrictions_ok hres, handle_permissions_ok hperm,
    hex, bind, Except.bind, pure, Except.pure]

lemma handle_delete_restricted {h : DataHandler} {d : String} (db : Store)
    (wl : Option (List (List String))) (da : Bool) (hres : d ∈ h.restricted_tables) :
    h.handle_delete db d wl da = .error forbiddenErr := by
  simp [DataHandler.handle_delete, handle_read_restricted db hres, bind, Except.bind]

lemma handle_update_restricted {h : DataHandler} {d : String} (db : Store)
    (data : Rec) (wl : Option (List (List String))) (hres : d ∈ h.restricted_tables) :
    h.handle_update db d data wl = .error forbiddenErr := by
  simp [DataHandler.handle_update, handle_restrictions_mem hres, bind, Except.bind]

lemma hasTable_dropped (db : Store) (d : String) :
    hasTable (db.filter (fun p => p.1 != d)) d = false := by
  simp [hasTable, List.any_eq_true, List.mem_filter]

/-- C1: every DataManager operation whose handler restricts the dataset name
raises the bare Forbidden (401) for that name, for every Store state, so the
outcome is one uniform error whether or not the dataset exists (the final
seven conjuncts state the Store-independence of each call directly). -/
theorem C1_restricted_uniform_forbidden (h : DataHandler) (d : String)
    (hres : d ∈ h.restricted_tables) :
    (∀ db data, DataManager.create ⟨some h⟩ db d data = .error forbiddenErr)
    ∧ (∀ db data, DataManager.insert ⟨some h⟩ db d data = .error forbiddenErr)
    ∧ (∀ db ws w, splitWhereOpt ws = .ok w → DataManager.get ⟨some h⟩ db d ws = .error forbiddenErr)
    ∧ (∀ db ws w wb da, splitWhereOpt ws = .ok w →
        DataManager.delete ⟨some h⟩ db d ws wb da = .error forbiddenErr)
    ∧ (∀ db data ws w, splitWhereList ws = .ok w →
        DataManager.update ⟨some h⟩ db d data ws = .error forbiddenErr)
    ∧ (∀ db, DataManager.get_columns ⟨some h⟩ db d = .error forbiddenErr)
    ∧ (∀ db, DataManager.get_rows ⟨some h⟩ db d = .error forbiddenErr)
    ∧ (∀ db₁ db₂ data, DataManager.create ⟨some h⟩ db₁ d data = DataManager.create ⟨some h⟩ db₂ d data)
    ∧ (∀ db₁ db₂ data, DataManager.insert ⟨some h⟩ db₁ d data = DataManager.insert ⟨some h⟩ db₂ d data)
    ∧ (∀ db₁ db₂ ws, DataManager.get ⟨some h⟩ db₁ d ws = DataManager.get ⟨some h⟩ db₂ d ws)
    ∧ (∀ db₁ db₂ ws wb da,
        DataManager.delete ⟨some h⟩ db₁ d ws wb da = DataManager.delete ⟨some h⟩ db₂ d ws wb da)
    ∧ (∀ db₁ db₂ data ws,
        DataManager.update ⟨some h⟩ db₁ d data ws = DataManager.update ⟨some h⟩ db₂ d data ws)
    ∧ (∀ db₁ db₂, DataManager.get_columns ⟨some h⟩ db₁ d = DataManager.get_columns ⟨some h⟩ db₂ d)
    ∧ (∀ db₁ db₂, DataManager.get_rows ⟨some h⟩ db₁ d = DataManager.get_rows ⟨some h⟩ db₂ d) := by
  have hcreate : ∀ db data, DataManager.create ⟨some h⟩ db d data = .error forbiddenErr := by
    intro db data
    simp [DataManager.create, handle_restrictions_mem hres, bind, Except.bind]
  have hinsert : ∀ db data, DataManager.insert ⟨some h⟩ db d data = .error forbiddenErr := by
    intro db data
    simp [DataManager.insert, handle_restrictions_mem hres, bind, Except.bind]
  have hget : ∀ db ws w, splitWhereOpt ws = .ok w →
      DataManager.get ⟨some h⟩ db d ws = .error forbiddenErr := by
    intro db ws w hw
    simp [DataManager.get, hw, handle_read_restricted db hres, bind, Except.bind]
  have hdelete : ∀ db ws w wb da, splitWhereOpt ws = .ok w →
      DataManager.delete ⟨some h⟩ db d ws wb da = .error forbiddenErr := by
    intro db ws w wb da hw
    simp [DataManager.delete, hw, handle_delete_restricted db w da hres, bind, Except.bind]
  have hupdate : ∀ db data ws w, splitWhereList ws = .ok w →
      DataManager.update ⟨some h⟩ db d data ws = .error forbiddenErr := by
    intro db data ws w hw
    simp [DataManager.update, hw, handle_update_restricted db data (some w) hres, bind, Except.bind]
  have hcols : ∀ db : Store, DataManager.get_columns ⟨some h⟩ db d = .error forbiddenErr := by
    intro db
    simp [DataManager.get_columns, handle_read_restricted db hres, bind, Except.bind]
  have hrows : ∀ db : Store, DataManager.get_rows ⟨some h⟩ db d = .error forbiddenErr := by
    intro db
    simp [DataManager.get_rows, handle_read_restricted db hres, bind, Except.bind]
  refine ⟨hcreate, hinsert, hget, hdelete, hupdate, hcols, hrows, ?_, ?_, ?_, ?_, ?_, ?_, ?_⟩
  · intro db₁ db₂ data
    rw [hcreate, hcreate]
  · intro db₁ db₂ data
    rw [hinsert, hinsert]
  · intro db₁ db₂ ws
    cases hw : splitWhereOpt ws with
    | ok w => rw [hget db₁ ws w hw, hget db₂ ws w hw]
    | error e => simp [DataManager.get, hw, bind, Except.bind]
  · intro db₁ db₂ ws wb da
    cases hw : splitWhereOpt ws with
    | ok w => rw [hdelete db₁ ws w wb da hw, hdelete db₂ ws w wb da hw]
    | error e => simp [DataManager.delete, hw, bind, Except.bind]
  · intro db₁ db₂ data ws
    cases hw : splitWhereList ws with
    | ok w => rw [hupdate db₁ data ws w hw, hupdate db₂ data ws w hw]
    | error e => simp [DataManager.update, hw, bind, Except.bind]
  · intro db₁ db₂
    rw [hcols, hcols]
  · intro db₁ db₂
    rw [hrows, hrows]

/-- C1 witness: the default handler restricts the table named data; get and
create return the bare Forbidden both when the table is absent and when it exists. -/
theorem C1_restricted_uniform_forbidden_witness :
    DataManager.get ⟨some {}⟩ [] "data" none = .error forbiddenErr
    ∧ DataManager.get ⟨some {}⟩ [("data", [])] "data" none = .error forbiddenErr
    ∧ DataManager.create ⟨some {}⟩ [("data", [])] "data" [] = .error forbiddenErr := by
  have hres : "data" ∈ DataHandler.restricted_tables {} := by
    simp [DataHandler.restricted_tables, DEFAULT_RESTRICTED_TABLES, DEFAULT_METADATA_TABLE]
  refine ⟨?_, ?_, ?_⟩
  · exact (C1_restricted_uniform_forbidden {} "data" hres).2.2.1 [] none none rfl
  · exact (C1_restricted_uniform_forbidden {} "data" hres).2.2.1 [("data", [])] none none rfl
  · exact (C1_restricted_uniform_forbidden {} "data" hres).1 [("data", [])] []

/-- C3: for an unrestricted, permitted dataset name, get, update, delete,
insert, get_columns and get_rows fail with NotFound when the Store reports the
dataset absent; create fails with the already-exists error when it is present
and succeeds (emitting exactly the Store insert) when it is absent. -/
theorem C3_existence_polarity (h : DataHandler) (d : String)
    (hres : d ∉ h.restricted_tables)
    (hperm : h.permitted_tables = [] ∨ d ∈ h.permitted_tables) :
    (∀ db ws w, hasTable db d = false → splitWhereOpt ws = .ok w →
        DataManager.get ⟨some h⟩ db d ws = .error notFoundErr)
    ∧ (∀ db data ws w, hasTable db d = false → splitWhereList ws = .ok w →
        DataManager.update ⟨some h⟩ db d data ws = .error notFoundErr)
    ∧ (∀ db ws w wb da, hasTable db d = false → splitWhereOpt ws = .ok w →
        DataManager.delete ⟨some h⟩ db d ws wb da = .error notFoundErr)
    ∧ (∀ db data, hasTable db d = false →
        DataManager.insert ⟨some h⟩ db d data = .error notFoundErr)
    ∧ (∀ db, hasTable db d = false → DataManager.get_columns ⟨some h⟩ db d = .error notFoundErr)
    ∧ (∀ db, hasTable db d = false → DataManager.get_rows ⟨some h⟩ db d = .error notFoundErr)
    ∧ (∀ db data, hasTable db d = true →
        DataManager.create ⟨some h⟩ db d data = .error alreadyExistsErr)
    ∧ (∀ db data, hasTable db d = false →
        DataManager.create ⟨some h⟩ db d data = .ok [StoreEff.insertRows d data]) := by
  refine ⟨?_, ?_, ?_, ?_, ?_, ?_, ?_, ?_⟩
  · intro db ws w hex hw
    simp [DataManager.get, hw, handle_read_notFound hres hperm hex, bind, Except.bind]
  · intro db data ws w hex hw
    simp [DataManager.update, hw, DataHandler.handle_update, handle_restrictions_ok hres,
      handle_permissions_ok hperm, handle_read_notFound hres hperm hex, bind, Except.bind]
  · intro db ws w wb da hex hw
    simp [DataManager.delete, hw, DataHandler.handle_delete,
      handle_read_notFound hres hperm hex, bind, Except.bind]
  · intro db data hex
    simp [DataManager.insert, handle_restrictions_ok hres,
      handle_read_notFound hres hperm hex, bind, Except.bind]
  · intro db hex
    simp [DataManager.get_columns, handle_read_notFound hres hperm hex, bind, Except.bind]
  · intro db hex
    simp [DataManager.get_rows, handle_read_notFound hres hperm hex, bind, Except.bind]
  · intro db data hex
    simp [DataManager.create, handle_restrictions_ok hres,
      handle_write_exists hres hperm hex, bind, Except.bind]
  · intro db data hex
    simp [DataManager.create, handle_restrictions_ok hres,
      handle_write_ok hres hperm hex, bind, Except.bind, pure, Except.pure]

/-- C3 witness: with an unrestricted handler, get on an absent table is
NotFound, create on a present table is the already-exists error, and create on
an absent table emits the insert. -/
theorem C3_existence_polarity_witness :
    DataManager.get ⟨some ⟨[], []⟩⟩ [] "t1" none = .error notFoundErr
    ∧ DataManager.create ⟨some ⟨[], []⟩⟩ [("t1", ["a"])] "t1" [] = .error alreadyExistsErr
    ∧ DataManager.create ⟨some ⟨[], []⟩⟩ [] "t1" [[("a", "1")]]
        = .ok [StoreEff.insertRows "t1" [[("a", "1")]]] := by
  have hres : "t1" ∉ DataHandler.restricted_tables ⟨[], []⟩ := by simp
  have hperm : DataHandler.permitted_tables ⟨[], []⟩ = [] ∨
      "t1" ∈ DataHandler.permitted_tables ⟨[], []⟩ := Or.inl rfl
  refine ⟨?_, ?_, ?_⟩
  · exact (C3_existence_polarity ⟨[], []⟩ "t1" hres hperm).1 [] none none rfl rfl
  · exact (C3_existence_polarity ⟨[], []⟩ "t1" hres hperm).2.2.2.2.2.2.1 [("t1", ["a"])] [] rfl
  · exact (C3_existence_polarity ⟨[], []⟩ "t1" hres hperm).2.2.2.2.2.2.2 [] [[("a", "1")]] rfl

/-- C4 (amended): on an existing, unrestricted dataset, delete with delete_all
drops the whole table; with where absent (None) and delete_all false it fails
with MissingFilter and leaves the Store unchanged; with an empty where list it
does not fail but calls the Store delete with no clauses; with a non-empty
valid where list it calls the Store delete with the parsed clauses. -/
theorem C4_delete_amended (h : DataHandler) (d : String)
    (hres : d ∉ h.restricted_tables)
    (hperm : h.permitted_tables = [] ∨ d ∈ h.permitted_tables)
    (db : Store) (hex : hasTable db d = true) :
    (∀ wb, DataManager.delete ⟨some h⟩ db d none wb true = .ok [StoreEff.dropTable d]
        ∧ hasTable (runWrite db (DataManager.delete ⟨some h⟩ db d none wb true)) d = false)
    ∧ (∀ wb, DataManager.delete ⟨some h⟩ db d none wb false = .error missingWhereErr
        ∧ runWrite db (DataManager.delete ⟨some h⟩ db d none wb false) = db)
    ∧ (∀ wb, DataManager.delete ⟨some h⟩ db d (some []) wb false
        = .ok [StoreEff.deleteRows d (some []) wb])
    ∧ (∀ ss w wb, splitWhereList ss = .ok w →
        DataHandler.handle_where (some w) = .ok () →
        DataManager.delete ⟨some h⟩ db d (some ss) wb false
          = .ok [StoreEff.deleteRows d (some w) wb]) := by
  have hread := handle_read_ok hres hperm hex
  refine ⟨?_, ?_, ?_, ?_⟩
  · intro wb
    have h1 : DataManager.delete ⟨some h⟩ db d none wb true = .ok [StoreEff.dropTable d] := by
      simp [DataManager.delete, splitWhereOpt, DataHandler.handle_delete, hread,
        DataHandler.handle_where, bind, Except.bind, pure, Except.pure]
    exact ⟨h1, by rw [h1]; simpa [runWrite, applyEffs, applyEff] using hasTable_dropped db d⟩
  · intro wb
    have h1 : DataManager.delete ⟨some h⟩ db d none wb false = .error missingWhereErr := by
      simp [DataManager.delete, splitWhereOpt, DataHandler.handle_delete, hread,
        bind, Except.bind, pure, Except.pure]
    exact ⟨h1, by rw [h1]; rfl⟩
  · intro wb
    simp [DataManager.delete, splitWhereOpt, DataHandler.handle_delete, hread,
      DataHandler.handle_where, bind, Except.bind, pure, Except.pure]
  · intro ss w wb hsplit hwok
    cases ss with
    | nil =>
      simp [splitWhereList, List.mapM, List.mapM.loop, pure, Except.pure] at hsplit
      subst hsplit
      simp [DataManager.delete, splitWhereOpt, DataHandler.handle_delete, hread,
        DataHandler.handle_where, bind, Except.bind, pure, Except.pure]
    | cons s ss =>
      simp [DataManager.delete, splitWhereOpt, hsplit, DataHandler.handle_delete, hread,
        hwok, bind, Except.bind, pure, Except.pure, Except.map]

/-- C4 counterexample: an empty (but present) where list with delete_all false
does not raise MissingFilter, contrary to the claim; the call reaches the
Store delete with no clauses. -/
theorem C4_counterexample_empty_where :
    DataManager.delete ⟨some ⟨[], []⟩⟩ [("t1", ["a"])] "t1" (some []) "AND" false
      = .ok [StoreEff.deleteRows "t1" (some []) "AND"]
    ∧ DataManager.delete ⟨some ⟨[], []⟩⟩ [("t1", ["a"])] "t1" (some []) "AND" false
      ≠ .error missingWhereErr := by
  have h1 : DataManager.delete ⟨some ⟨[], []⟩⟩ [("t1", ["a"])] "t1" (some []) "AND" false
      = .ok [StoreEff.deleteRows "t1" (some []) "AND"] := rfl
  refine ⟨h1, ?_⟩
  rw [h1]
  intro hco
  exact Except.noConfusion hco

/-- C5: update on an existing, unrestricted dataset with a payload key absent
from the target schema fails with the unknown-column 400 and performs no Store
write (the catalog after the call is the one before it). -/
theorem C5_update_unknown_column (h : DataHandler) (d : String)
    (hres : d ∉ h.restricted_tables)
    (hperm : h.permitted_tables = [] ∨ d ∈ h.permitted_tables)
    (db : Store) (hex : hasTable db d = true)
    (data : Rec) (ws : List String) (w : List (List String))
    (hw : splitWhereList ws = .ok w)
    (hwok : DataHandler.handle_where (some w) = .ok ())
    (k : String)
    (hk : (recKeys data).find? (fun k => !((tableColumns db d).contains k)) = some k) :
    DataManager.update ⟨some h⟩ db d data ws = .error (unknownColumnErr k)
    ∧ runWrite db (DataManager.update ⟨some h⟩ db d data ws) = db := by
  have h1 : DataManager.update ⟨some h⟩ db d data ws = .error (unknownColumnErr k) := by
    simp at hk
    simp [DataManager.update, hw, DataHandler.handle_update, handle_restrictions_ok hres,
      handle_permissions_ok hperm, handle_read_ok hres hperm hex, hwok, hk,
      bind, Except.bind]
  exact ⟨h1, by rw [h1]; rfl⟩

/-- C5 witness: updating column c on a table with columns a, b fails with the
unknown-column error and the catalog is unchanged. -/
theorem C5_update_unknown_column_witness :
    DataManager.update ⟨some ⟨[], []⟩⟩ [("t1", ["a", "b"])] "t1" [("c", "5")] ["a = 1"]
      = .error (unknownColumnErr "c")
    ∧ runWrite [("t1", ["a", "b"])]
        (DataManager.update ⟨some ⟨[], []⟩⟩ [("t1", ["a", "b"])] "t1" [("c", "5")] ["a = 1"])
      = [("t1", ["a", "b"])] := by
  have hres : "t1" ∉ DataHandler.restricted_tables ⟨[], []⟩ := by simp
  have hperm : DataHandler.permitted_tables ⟨[], []⟩ = [] ∨
      "t1" ∈ DataHandler.permitted_tables ⟨[], []⟩ := Or.inl rfl
  exact C5_update_unknown_column ⟨[], []⟩ "t1" hres hperm [("t1", ["a", "b"])] rfl
    [("c", "5")] ["a = 1"] [["a", "=", "1"]] rfl (by rfl) "c" (by rfl)

/-- C4 witness: on an existing table, delete-all drops it, a None where without
delete_all is MissingFilter, and a valid where reaches the Store delete with
the parsed clause. -/
theorem C4_delete_amended_witness :
    DataManager.delete ⟨some ⟨[], []⟩⟩ [("t1", ["a"])] "t1" none "AND" true
      = .ok [StoreEff.dropTable "t1"]
    ∧ DataManager.delete ⟨some ⟨[], []⟩⟩ [("t1", ["a"])] "t1" none "AND" false
      = .error missingWhereErr
    ∧ DataManager.delete ⟨some ⟨[], []⟩⟩ [("t1", ["a"])] "t1" (some ["a > 1"]) "AND" false
      = .ok [StoreEff.deleteRows "t1" (some [["a", ">", "1"]]) "AND"] := by
  have hres : "t1" ∉ DataHandler.restricted_tables ⟨[], []⟩ := by simp
  have hperm : DataHandler.permitted_tables ⟨[], []⟩ = [] ∨
      "t1" ∈ DataHandler.permitted_tables ⟨[], []⟩ := Or.inl rfl
  have hc := C4_delete_amended ⟨[], []⟩ "t1" hres hperm [("t1", ["a"])] rfl
  exact ⟨(hc.1 "AND").1, (hc.2.1 "AND").1, hc.2.2.2 ["a > 1"] [["a", ">", "1"]] "AND" rfl (by rfl)⟩

lemma find?_map_set (r : Rec) (k v : String) (h : r.any (fun p => p.1 == k) = true) :
    (r.map (fun p => if p.1 == k then (k, v) else p)).find? (fun p => p.1 == k) = some (k, v) := by
  induction r with
  | nil => simp at h
  | cons p r ih =>
    rw [List.map_cons]
    cases hp : (p.1 == k) with
    | true =>
      have he : (if true = true then (k, v) else p) = (k, v) := rfl
      rw [he]
      exact List.find?_cons_of_pos _ (by simp)
    | false =>
      have he : (if false = true then (k, v) else p) = p := rfl
      rw [he, List.find?_cons_of_neg _ (by simp [hp])]
      apply ih
      simpa [hp] using h

lemma find?_append_new (r : Rec) (k v : String) (h : r.any (fun p => p.1 == k) = false) :
    (r ++ [(k, v)]).find? (fun p => p.1 == k) = some (k, v) := by
  induction r with
  | nil => simp
  | cons p r ih =>
    simp only [List.any_cons, Bool.or_eq_false_iff] at h
    rw [List.cons_append, List.find?_cons_of_neg _ (by simp [h.1])]
    exact ih h.2

lemma recGet_recSet (r : Rec) (k v : String) : recGet (recSet r k v) k = some v := by
  unfold recSet
  cases h : r.any (fun p => p.1 == k) with
  | true =>
    show recGet (r.map (fun p => if p.1 == k then (k, v) else p)) k = some v
    unfold recGet
    rw [find?_map_set r k v h]
    rfl
  | false =>
    show recGet (r ++ [(k, v)]) k = some v
    unfold recGet
    rw [find?_append_new r k v h]
    rfl

lemma insert_ok_shape (m : DataManager) (db : Store) (t : String) (rows : List Rec)
    (effs : List StoreEff) (h : DataManager.insert m db t rows = .ok effs) :
    effs = [StoreEff.insertRows t rows] := by
  cases hh : m.handler with
  | none =>
    simp [DataManager.insert, hh, bind, Except.bind, pure, Except.pure] at h
    exact h.symm
  | some hd =>
    cases hr : hd.handle_restrictions t with
    | error e => simp [DataManager.insert, hh, hr, bind, Except.bind] at h
    | ok u =>
      cases u
      cases hre : hd.handle_read db t with
      | error e => simp [DataManager.insert, hh, hr, hre, bind, Except.bind] at h
      | ok u2 =>
        cases u2
        simp [DataManager.insert, hh, hr, hre, bind, Except.bind, pure, Except.pure] at h
        exact h.symm

/-- C6 counterexample: a two-element descriptor list passed to the ledger
create succeeds but inserts a second record whose dataset field stays "y",
not the target name "t1", refuting the claim that every inserted record has
its dataset field forced to the argument. -/
theorem C6_counterexample :
    (MetadataManager.create
        { table := "data",
          dm := { handler := some { permitted_tables := ["data"], restricted_tables := [] } } }
        [("data", DEFAULT_METADATA_COLUMN_NAMES)] "t1"
        (.many [[("title", "A")], [("dataset", "y")]])
      = .ok [StoreEff.insertRows "data" [[("title", "A"), ("dataset", "t1")], [("dataset", "y")]]])
    ∧ ¬ (∀ r ∈ [[("title", "A"), ("dataset", "t1")], [("dataset", "y")]],
          recGet r "dataset" = some "t1") := by
  refine ⟨rfl, ?_⟩
  intro hall
  have := hall [("dataset", "y")] (by simp)
  simp [recGet] at this

/-- C6 (amended): the metadata create forces the dataset key of the first
record only: a single-dict descriptor is always inserted with its dataset
field equal to the argument, and in a list the head is forced while the
remaining records are inserted unchanged. -/
theorem C6_create_amended (mm : MetadataManager) (db : Store) (ds : String) :
    (∀ r effs, MetadataManager.create mm db ds (.one r) = .ok effs →
        effs = [StoreEff.insertRows mm.table [recSet r "dataset" ds]])
    ∧ (∀ r rest effs, MetadataManager.create mm db ds (.many (r :: rest)) = .ok effs →
        effs = [StoreEff.insertRows mm.table (recSet r "dataset" ds :: rest)])
    ∧ (∀ r, recGet (recSet r "dataset" ds) "dataset" = some ds) := by
  refine ⟨?_, ?_, fun r => recGet_recSet r "dataset" ds⟩
  · intro r effs h
    exact insert_ok_shape mm.dm db mm.table [recSet r "dataset" ds] effs h
  · intro r rest effs h
    exact insert_ok_shape mm.dm db mm.table (recSet r "dataset" ds :: rest) effs h

/-- C6 witness: the two-record create emits exactly the head-forced insert,
and the forced head reads back the target dataset name. -/
theorem C6_create_amended_witness :
    ([StoreEff.insertRows "data" [[("title", "A"), ("dataset", "t1")], [("dataset", "y")]]]
      = [StoreEff.insertRows "data"
          (recSet [("title", "A")] "dataset" "t1" :: [[("dataset", "y")]])])
    ∧ recGet (recSet [("title", "A")] "dataset" "t1") "dataset" = some "t1" := by
  refine ⟨?_, ?_⟩
  · exact (C6_create_amended
      { table := "data",
        dm := { handler := some { permitted_tables := ["data"], restricted_tables := [] } } }
      [("data", DEFAULT_METADATA_COLUMN_NAMES)] "t1").2.1
      [("title", "A")] [[("dataset", "y")]] _ rfl
  · exact (C6_create_amended
      { table := "data",
        dm := { handler := some { permitted_tables := ["data"], restricted_tables := [] } } }
      [("data", DEFAULT_METADATA_COLUMN_NAMES)] "t1").2.2 [("title", "A")]

lemma handle_write_not_permitted {h : DataHandler} {d : String} (db : Store)
    (hres : d ∉ h.restricted_tables) (hne : h.permitted_tables ≠ []) (hnm : d ∉ h.permitted_tables) :
    h.handle_write db d = .error forbiddenErr := by
  simp [DataHandler.handle_write, handle_restrictions_ok hres,
    handle_permissions_forbidden hne hnm, bind, Except.bind]

lemma handle_update_not_permitted {h : DataHandler} {d : String} (db : Store)
    (data : Rec) (wl : Option (List (List String)))
    (hres : d ∉ h.restricted_tables) (hne : h.permitted_tables ≠ []) (hnm : d ∉ h.permitted_tables) :
    h.handle_update db d data wl = .error forbiddenErr := by
  simp [DataHandler.handle_update, handle_restrictions_ok hres,
    handle_permissions_forbidden hne hnm, bind, Except.bind]

lemma ops_forbidden_of_only_permitted (t : String) (d : String) (hd : d ≠ t) :
    (∀ db data, DataManager.create
        ⟨some { permitted_tables := [t], restricted_tables := [] }⟩ db d data = .error forbiddenErr)
    ∧ (∀ db data, DataManager.insert
        ⟨some { permitted_tables := [t], restricted_tables := [] }⟩ db d data = .error forbiddenErr)
    ∧ (∀ db ws w, splitWhereOpt ws = .ok w → DataManager.get
        ⟨some { permitted_tables := [t], restricted_tables := [] }⟩ db d ws = .error forbiddenErr)
    ∧ (∀ db ws w wb da, splitWhereOpt ws = .ok w → DataManager.delete
        ⟨some { permitted_tables := [t], restricted_tables := [] }⟩ db d ws wb da = .error forbiddenErr)
    ∧ (∀ db data ws w, splitWhereList ws = .ok w → DataManager.update
        ⟨some { permitted_tables := [t], restricted_tables := [] }⟩ db d data ws = .error forbiddenErr)
    ∧ (∀ db, DataManager.get_columns
        ⟨some { permitted_tables := [t], restricted_tables := [] }⟩ db d = .error forbiddenErr)
    ∧ (∀ db, DataManager.get_rows
        ⟨some { permitted_tables := [t], restricted_tables := [] }⟩ db d = .error forbiddenErr) := by
  have hres : d ∉ DataHandler.restricted_tables { permitted_tables := [t], restricted_tables := [] } := by
    simp
  have hne : DataHandler.permitted_tables { permitted_tables := [t], restricted_tables := [] } ≠ [] := by
    simp
  have hnm : d ∉ DataHandler.permitted_tables { permitted_tables := [t], restricted_tables := [] } := by
    simpa using hd
  refine ⟨?_, ?_, ?_, ?_, ?_, ?_, ?_⟩
  · intro db data
    simp [DataManager.create, handle_restrictions_ok hres,
      handle_write_not_permitted db hres hne hnm, bind, Except.bind]
  · intro db data
    simp [DataManager.insert, handle_restrictions_ok hres,
      handle_read_not_permitted db hres hne hnm, bind, Except.bind]
  · intro db ws w hw
    simp [DataManager.get, hw, handle_read_not_permitted db hres hne hnm, bind, Except.bind]
  · intro db ws w wb da hw
    simp [DataManager.delete, hw, DataHandler.handle_delete,
      handle_read_not_permitted db hres hne hnm, bind, Except.bind]
  · intro db data ws w hw
    simp [DataManager.update, hw, handle_update_not_permitted db data (some w) hres hne hnm,
      bind, Except.bind]
  · intro db
    simp [DataManager.get_columns, handle_read_not_permitted db hres hne hnm, bind, Except.bind]
  · intro db
    simp [DataManager.get_rows, handle_read_not_permitted db hres hne hnm, bind, Except.bind]

/-- C7: a successfully constructed MetadataManager carries a handler whose
permitted list is exactly the ledger table and whose restricted list is empty,
and every DataManager operation through it on any other table is the bare
Forbidden (401). -/
theorem C7_metadata_manager_privileged (dm : DataManager) (table : String)
    (cols : List String) (db : Store) (mm : MetadataManager) (effs : List StoreEff)
    (hinit : MetadataManager.init dm table cols db = .ok (mm, effs)) :
    mm.table = table
    ∧ mm.dm.handler = some { permitted_tables := [table], restricted_tables := [] }
    ∧ (∀ d, d ≠ table →
        (∀ db2 data, DataManager.create mm.dm db2 d data = .error forbiddenErr)
        ∧ (∀ db2 data, DataManager.insert mm.dm db2 d data = .error forbiddenErr)
        ∧ (∀ db2 ws w, splitWhereOpt ws = .ok w →
            DataManager.get mm.dm db2 d ws = .error forbiddenErr)
        ∧ (∀ db2 ws w wb da, splitWhereOpt ws = .ok w →
            DataManager.delete mm.dm db2 d ws wb da = .error forbiddenErr)
        ∧ (∀ db2 data ws w, splitWhereList ws = .ok w →
            DataManager.update mm.dm db2 d data ws = .error forbiddenErr)
        ∧ (∀ db2, DataManager.get_columns mm.dm db2 d = .error forbiddenErr)
        ∧ (∀ db2, DataManager.get_rows mm.dm db2 d = .error forbiddenErr)) := by
  cases hh : dm.handler with
  | none => simp [MetadataManager.init, hh] at hinit
  | some h0 =>
    have hmm : mm =
        { table := table,
          dm := { handler := some { permitted_tables := [table], restricted_tables := [] } } } := by
      simp [MetadataManager.init, hh] at hinit
      exact hinit.1.symm
    subst hmm
    refine ⟨rfl, rfl, ?_⟩
    intro d hd
    exact ops_forbidden_of_only_permitted table d hd

/-- C7 witness: a metadata manager built over the default ledger table rejects
get and insert on the unrelated table t1 with the bare Forbidden. -/
theorem C7_metadata_manager_privileged_witness :
    DataManager.get { handler := some { permitted_tables := ["data"], restricted_tables := [] } }
        [("t1", ["a"])] "t1" none = .error forbiddenErr
    ∧ DataManager.insert { handler := some { permitted_tables := ["data"], restricted_tables := [] } }
        [("t1", ["a"])] "t1" [] = .error forbiddenErr := by
  have hc := C7_metadata_manager_privileged ⟨some {}⟩ "data" DEFAULT_METADATA_COLUMN_NAMES []
    { table := "data",
      dm := { handler := some { permitted_tables := ["data"], restricted_tables := [] } } }
    [StoreEff.createTable "data" DEFAULT_METADATA_COLUMN_NAMES] rfl
  have hops := hc.2.2 "t1" (by decide)
  exact ⟨hops.2.2.1 [("t1", ["a"])] none none rfl, hops.2.1 [("t1", ["a"])] []⟩

/-- C10: the default-argument DataHandler is one shared heap cell; after the
metadata-manager wiring mutates it, a default-constructed DataManager (same
cell) succeeds on t1 before the mutation but afterwards every operation on any
dataset other than the metadata table is the bare Forbidden (401). -/
theorem C10_shared_default_handler :
    mkDefaultDataManager.handlerRef = defaultHandlerRef
    ∧ (((create_metadata_manager_heap moduleHeap).1.read defaultHandlerRef).permitted_tables
        = [DEFAULT_METADATA_TABLE])
    ∧ (((create_metadata_manager_heap moduleHeap).1.read defaultHandlerRef).restricted_tables = [])
    ∧ DataManager.get (derefDataManager moduleHeap mkDefaultDataManager) [("t1", ["a"])] "t1" none
        = .ok none
    ∧ DataManager.get (derefDataManager (create_metadata_manager_heap moduleHeap).1
        mkDefaultDataManager) [("t1", ["a"])] "t1" none = .error forbiddenErr
    ∧ (∀ d, d ≠ DEFAULT_METADATA_TABLE →
        (∀ db data, DataManager.create (derefDataManager (create_metadata_manager_heap moduleHeap).1
            mkDefaultDataManager) db d data = .error forbiddenErr)
        ∧ (∀ db data, DataManager.insert (derefDataManager (create_metadata_manager_heap moduleHeap).1
            mkDefaultDataManager) db d data = .error forbiddenErr)
        ∧ (∀ db ws w, splitWhereOpt ws = .ok w →
            DataManager.get (derefDataManager (create_metadata_manager_heap moduleHeap).1
              mkDefaultDataManager) db d ws = .error forbiddenErr)
        ∧ (∀ db ws w wb da, splitWhereOpt ws = .ok w →
            DataManager.delete (derefDataManager (create_metadata_manager_heap moduleHeap).1
              mkDefaultDataManager) db d ws wb da = .error forbiddenErr)
        ∧ (∀ db data ws w, splitWhereList ws = .ok w →
            DataManager.update (derefDataManager (create_metadata_manager_heap moduleHeap).1
              mkDefaultDataManager) db d data ws = .error forbiddenErr)
        ∧ (∀ db, DataManager.get_columns (derefDataManager (create_metadata_manager_heap moduleHeap).1
            mkDefaultDataManager) db d = .error forbiddenErr)
        ∧ (∀ db, DataManager.get_rows (derefDataManager (create_metadata_manager_heap moduleHeap).1
            mkDefaultDataManager) db d = .error forbiddenErr)) := by
  have hderef : derefDataManager (create_metadata_manager_heap moduleHeap).1 mkDefaultDataManager
      = ⟨some { permitted_tables := [DEFAULT_METADATA_TABLE], restricted_tables := [] }⟩ := rfl
  refine ⟨rfl, rfl, rfl, rfl, ?_, ?_⟩
  · rw [hderef]
    exact (ops_forbidden_of_only_permitted DEFAULT_METADATA_TABLE "t1" (by decide)).2.2.1
      [("t1", ["a"])] none none rfl
  · intro d hd
    rw [hderef]
    exact ops_forbidden_of_only_permitted DEFAULT_METADATA_TABLE d hd

/-- C10 witness: after the shared-handler mutation, insert on t1 through the
mutated handler state is the bare Forbidden. -/
theorem C10_shared_default_handler_witness :
    DataManager.insert
      ⟨some { permitted_tables := [DEFAULT_METADATA_TABLE], restricted_tables := [] }⟩
      [("t1", ["a"])] "t1" [] = .error forbiddenErr := by
  have h := (C10_shared_default_handler.2.2.2.2.2 "t1" (by decide)).2.1 [("t1", ["a"])] []
  simpa using h

/-- C8: wiring the router with only the create enable flag false registers no
create endpoint; the other eight routes are exactly the default wiring (same
paths, same resolved restricted-table lists). -/
theorem C8_router_disable_create :
    (∀ r ∈ get_data_router { enable_create_route := false }, r.kind ≠ RouteKind.create)
    ∧ get_data_router { enable_create_route := false }
        = (get_data_router {}).filter (fun r => r.kind != RouteKind.create)
    ∧ get_data_router {} =
        [⟨.create, .post, "/", some ["data", "user"]⟩,
         ⟨.delete, .del, "/", some ["data", "user"]⟩,
         ⟨.idRoute, .get, "/{dataset}/id/{id}", some ["data", "user"]⟩,
         ⟨.insert, .put, "/{dataset}/insert", some ["data", "user"]⟩,
         ⟨.metadata, .get, "/{dataset}/metadata", none⟩,
         ⟨.metadata_update, .put, "/{dataset}/metadata", none⟩,
         ⟨.query, .get, "/{dataset}", some ["data", "user"]⟩,
         ⟨.search, .get, "/", none⟩,
         ⟨.update, .put, "/{dataset}", some ["data", "user"]⟩] := by
  refine ⟨by decide, rfl, rfl⟩

lemma slexAux_plain_chunk (cs : List Char) (h : cs.all plainChar = true) :
    ∀ rest cur quoted acc, slexAux (cs ++ rest) .normal cur quoted acc
      = slexAux rest .normal (cs.reverse ++ cur) quoted acc := by
  induction cs with
  | nil => intro rest cur quoted acc; simp
  | cons c cs ih =>
    intro rest cur quoted acc
    simp only [List.all_cons, Bool.and_eq_true] at h
    obtain ⟨hc, hcs⟩ := h
    simp only [plainChar, Bool.and_eq_true, Bool.not_eq_true', bne_iff_ne, ne_eq] at hc
    have hsp : isShlexSpace c = false := hc.1.1.1
    have hsq : (c == squoteChar) = false := by simpa using hc.1.1.2
    have hdq : (c == dquoteChar) = false := by simpa using hc.1.2
    have hbs : (c == bslashChar) = false := by simpa using hc.2
    rw [List.cons_append]
    rw [slexAux]
    simp only [hsp, hsq, hdq, hbs, Bool.false_eq_true, if_false]
    rw [ih hcs rest (c :: cur) quoted acc]
    simp [List.append_assoc]

lemma slexAux_space (rest : List Char) (cur : List Char) (quoted : Bool) (acc : List String)
    (h : cur ≠ []) :
    slexAux (' ' :: rest) .normal cur quoted acc
      = slexAux rest .normal [] false (String.mk cur.reverse :: acc) := by
  rw [slexAux]
  have hsp : isShlexSpace ' ' = true := rfl
  rw [if_pos hsp]
  have : slexFlush cur quoted acc = String.mk cur.reverse :: acc := by
    unfold slexFlush
    rw [if_neg]
    simp [h]
  rw [this]

lemma slexAux_end (cur : List Char) (quoted : Bool) (acc : List String) (h : cur ≠ []) :
    slexAux [] .normal cur quoted acc = .ok ((String.mk cur.reverse :: acc).reverse) := by
  rw [slexAux]
  have : slexFlush cur quoted acc = String.mk cur.reverse :: acc := by
    unfold slexFlush
    rw [if_neg]
    simp [h]
  rw [this]

lemma plainTok_parts {s : String} (h : plainTok s = true) :
    s.data ≠ [] ∧ s.data.all plainChar = true := by
  simp only [plainTok, Bool.and_eq_true, Bool.not_eq_true', List.isEmpty_eq_false] at h
  exact h

lemma mk_reverse_reverse (l : List Char) : String.mk l.reverse.reverse = String.mk l := by
  rw [List.reverse_reverse]

lemma shlexSplit_triple (c op v : String)
    (hc : plainTok c = true) (hop : plainTok op = true) (hv : plainTok v = true) :
    shlexSplit (c ++ " " ++ op ++ " " ++ v) = .ok [c, op, v] := by
  obtain ⟨hcne, hcall⟩ := plainTok_parts hc
  obtain ⟨hopne, hopall⟩ := plainTok_parts hop
  obtain ⟨hvne, hvall⟩ := plainTok_parts hv
  have hdata : (c ++ " " ++ op ++ " " ++ v).data
      = c.data ++ (' ' :: (op.data ++ (' ' :: v.data))) := by
    simp [String.data_append]
  unfold shlexSplit
  rw [hdata]
  rw [slexAux_plain_chunk c.data hcall _ [] false []]
  rw [List.append_nil]
  rw [slexAux_space _ _ _ _ (by simpa using hcne)]
  rw [mk_reverse_reverse]
  rw [slexAux_plain_chunk op.data hopall _ [] false _]
  rw [List.append_nil]
  rw [slexAux_space _ _ _ _ (by simpa using hopne)]
  rw [mk_reverse_reverse]
  rw [show v.data = v.data ++ [] from (List.append_nil _).symm]
  rw [slexAux_plain_chunk v.data hvall [] [] false _]
  rw [List.append_nil]
  rw [slexAux_end _ _ _ (by simpa using hvne)]
  rw [mk_reverse_reverse]
  rfl



lemma splitWhereList_triples (ts : List (String × String × String))
    (h : ∀ t ∈ ts, plainTok t.1 = true ∧ plainTok t.2.1 = true ∧ plainTok t.2.2 = true) :
    splitWhereList (ts.map (fun t => t.1 ++ " " ++ t.2.1 ++ " " ++ t.2.2))
      = .ok (ts.map (fun t => [t.1, t.2.1, t.2.2])) := by
  induction ts with
  | nil => rfl
  | cons t ts ih =>
    have ht := h t (by simp)
    have hts : ∀ t2 ∈ ts, plainTok t2.1 = true ∧ plainTok t2.2.1 = true ∧ plainTok t2.2.2 = true :=
      fun t2 h2 => h t2 (by simp [h2])
    have hsp := shlexSplit_triple t.1 t.2.1 t.2.2 ht.1 ht.2.1 ht.2.2
    have ihs := ih hts
    unfold splitWhereList at ihs ⊢
    rw [List.map_cons, List.map_cons, List.mapM_cons]
    have ihs2 : List.mapM.loop shlexSplit
        (List.map (fun t => t.1 ++ " " ++ t.2.1 ++ " " ++ t.2.2) ts) []
        = Except.ok (List.map (fun t => [t.1, t.2.1, t.2.2]) ts) := by
      simpa [List.mapM] using ihs
    simp [hsp, ihs2, bind, Except.bind, pure, Except.pure]

lemma handle_where_malformed (ls : List (List String)) (h : ∃ w ∈ ls, w.length ≠ 3) :
    DataHandler.handle_where (some ls) = .error malformedWhereErr := by
  obtain ⟨w, hw, hlen⟩ := h
  have hne : ls.isEmpty = false := by
    cases ls
    · simp at hw
    · rfl
  have hany : ls.any (fun w => w.length != 3) = true := by
    rw [List.any_eq_true]
    exact ⟨w, hw, by simpa using hlen⟩
  simp [DataHandler.handle_where, hne, hany]

lemma handle_where_unsupported (ls : List (List String)) (w₀ : List String)
    (hlen : ∀ w ∈ ls, w.length = 3)
    (hfind : ls.find? (fun w => !(opSupported w)) = some w₀) :
    DataHandler.handle_where (some ls) = .error (unsupportedOpErr (whereOp w₀)) := by
  have hne : ls.isEmpty = false := by
    cases ls
    · simp at hfind
    · rfl
  have hany : ls.any (fun w => w.length != 3) = false := by
    rw [List.any_eq_false]
    intro w hw
    simp [hlen w hw]
  simp [DataHandler.handle_where, hne, hany, hfind]

lemma handle_where_ok_of (ls : List (List String))
    (hlen : ∀ w ∈ ls, w.length = 3)
    (hop : ∀ w ∈ ls, opSupported w = true) :
    DataHandler.handle_where (some ls) = .ok () := by
  cases ls with
  | nil => rfl
  | cons w0 ls0 =>
    have hany : ((w0 :: ls0).any fun w => w.length != 3) = false := by
      rw [List.any_eq_false]
      intro w hw
      simp [hlen w hw]
    have hfind : List.find? (fun w => !(opSupported w)) (w0 :: ls0) = none := by
      rw [List.find?_eq_none]
      intro w hw
      simp [hop w hw]
    simp only [DataHandler.handle_where, List.isEmpty_cons, hany, hfind]
    simp

lemma handle_where_triples_ok (ts : List (String × String × String))
    (h : ∀ t ∈ ts, DEFAULT_SUPPORTED_OPERATORS.contains (strUpper t.2.1) = true) :
    DataHandler.handle_where (some (ts.map (fun t => [t.1, t.2.1, t.2.2]))) = .ok () := by
  apply handle_where_ok_of
  · intro w hw
    rw [List.mem_map] at hw
    obtain ⟨t, _, rfl⟩ := hw
    rfl
  · intro w hw
    rw [List.mem_map] at hw
    obtain ⟨t, ht, rfl⟩ := hw
    have hh := h t ht
    simp [opSupported, whereOp]
    simpa using hh

/-- C2: where-clause validation over raw filter strings: when the split token
lists contain a clause of token count other than 3 the result is the
MalformedFilter 400; when all clauses have 3 tokens and some operator is
unsupported (case-insensitively) the result is the UnsupportedOperator 400
naming the first offending operator; triples of plain tokens with supported
operators validate successfully and round-trip to the original
(column, operator, value) triples; an absent or empty filter list passes. -/
theorem C2_where_validation :
    (∀ ss ls, splitWhereOpt ss = .ok (some ls) → (∃ w ∈ ls, w.length ≠ 3) →
        validateWhere ss = .error malformedWhereErr)
    ∧ (∀ ss ls w₀, splitWhereOpt ss = .ok (some ls) → (∀ w ∈ ls, w.length = 3) →
        ls.find? (fun w => !(opSupported w)) = some w₀ →
        validateWhere ss = .error (unsupportedOpErr (whereOp w₀)))
    ∧ (∀ ts : List (String × String × String),
        (∀ t ∈ ts, plainTok t.1 = true ∧ plainTok t.2.1 = true ∧ plainTok t.2.2 = true
          ∧ DEFAULT_SUPPORTED_OPERATORS.contains (strUpper t.2.1) = true) →
        validateWhere (some (ts.map (fun t => t.1 ++ " " ++ t.2.1 ++ " " ++ t.2.2)))
          = .ok (some (ts.map (fun t => [t.1, t.2.1, t.2.2]))))
    ∧ validateWhere none = .ok none
    ∧ validateWhere (some []) = .ok (some []) := by
  refine ⟨?_, ?_, ?_, rfl, rfl⟩
  · intro ss ls hsplit hbad
    simp [validateWhere, hsplit, handle_where_malformed ls hbad, bind, Except.bind]
  · intro ss ls w₀ hsplit hlen hfind
    simp [validateWhere, hsplit, handle_where_unsupported ls w₀ hlen hfind, bind, Except.bind]
  · intro ts h
    cases hts : ts with
    | nil => rfl
    | cons t0 ts0 =>
      subst hts
      have hsplit := splitWhereList_triples (t0 :: ts0)
        (fun t ht => ⟨(h t ht).1, (h t ht).2.1, (h t ht).2.2.1⟩)
      have hwok := handle_where_triples_ok (t0 :: ts0) (fun t ht => (h t ht).2.2.2)
      simp only [List.map_cons] at hsplit hwok ⊢
      simp [validateWhere, splitWhereOpt, hsplit, hwok, bind, Except.bind, pure, Except.pure,
        Except.map]

/-- C2 witness: a two-token clause is malformed, a tilde operator is
unsupported, and col < 3 round-trips. -/
theorem C2_where_validation_witness :
    validateWhere (some ["a ="]) = .error malformedWhereErr
    ∧ validateWhere (some ["a ~ 1"]) = .error (unsupportedOpErr "~")
    ∧ validateWhere (some ["col < 3"]) = .ok (some [["col", "<", "3"]]) := by
  refine ⟨?_, ?_, ?_⟩
  · exact C2_where_validation.1 (some ["a ="]) [["a", "="]] rfl
      ⟨["a", "="], by simp, by decide⟩
  · exact C2_where_validation.2.1 (some ["a ~ 1"]) [["a", "~", "1"]] ["a", "~", "1"] rfl
      (by intro w hw; simp at hw; subst hw; rfl) (by rfl)
  · have hw := C2_where_validation.2.2.1 [("col", "<", "3")]
      (by intro t ht; simp at ht; subst ht; exact ⟨by decide, by decide, by decide, by decide⟩)
    simpa using hw

lemma handle_restrictions_error_shape {h : DataHandler} {d : String} {e : ApiError}
    (he : h.handle_restrictions d = .error e) : e = forbiddenErr := by
  unfold DataHandler.handle_restrictions at he
  split at he
  · cases he
    rfl
  · cases he

lemma handle_permissions_error_shape {h : DataHandler} {d : String} {e : ApiError}
    (he : h.handle_permissions d = .error e) : e = forbiddenErr := by
  unfold DataHandler.handle_permissions at he
  split at he
  · cases he
    rfl
  · cases he

lemma unsupportedOpErr_has_reason (op : String) : errHasReason (unsupportedOpErr op) = true := by
  simp [errHasReason, errDetail, unsupportedOpErr, String.data_append]

lemma handle_where_error_shape {wl : Option (List (List String))} {e : ApiError}
    (he : DataHandler.handle_where wl = .error e) : errHasReason e = true := by
  cases wl with
  | none => cases he
  | some l =>
    by_cases h1 : l.isEmpty = true
    · simp [DataHandler.handle_where, h1] at he
    · by_cases h2 : (l.any fun w => w.length != 3) = true
      · simp [DataHandler.handle_where, h1, h2] at he
        rw [← he]
        decide
      · cases hf : l.find? (fun w => !(opSupported w)) with
        | some w =>
          simp [DataHandler.handle_where, h1, h2, hf] at he
          rw [← he]
          exact unsupportedOpErr_has_reason (whereOp w)
        | none => simp [DataHandler.handle_where, h1, h2, hf] at he

lemma handle_read_error_shape {h : DataHandler} {db : Store} {d : String} {e : ApiError}
    (he : h.handle_read db d = .error e) : e = forbiddenErr ∨ errHasReason e = true := by
  cases hr : h.handle_restrictions d with
  | error e1 =>
    simp [DataHandler.handle_read, hr, bind, Except.bind] at he
    exact Or.inl (he ▸ handle_restrictions_error_shape hr)
  | ok u =>
    cases u
    cases hp : h.handle_permissions d with
    | error e2 =>
      simp [DataHandler.handle_read, hr, hp, bind, Except.bind] at he
      exact Or.inl (he ▸ handle_permissions_error_shape hp)
    | ok u2 =>
      cases u2
      simp [DataHandler.handle_read, hr, hp, bind, Except.bind] at he
      split at he
      · cases he
        exact Or.inr (by decide)
      · cases he

lemma handle_write_error_shape {h : DataHandler} {db : Store} {d : String} {e : ApiError}
    (he : h.handle_write db d = .error e) : e = forbiddenErr ∨ errHasReason e = true := by
  cases hr : h.handle_restrictions d with
  | error e1 =>
    simp [DataHandler.handle_write, hr, bind, Except.bind] at he
    exact Or.inl (he ▸ handle_restrictions_error_shape hr)
  | ok u =>
    cases u
    cases hp : h.handle_permissions d with
    | error e2 =>
      simp [DataHandler.handle_write, hr, hp, bind, Except.bind] at he
      exact Or.inl (he ▸ handle_permissions_error_shape hp)
    | ok u2 =>
      cases u2
      simp [DataHandler.handle_write, hr, hp, bind, Except.bind] at he
      split at he
      · cases he
        exact Or.inr (by decide)
      · cases he

lemma handle_delete_error_shape {h : DataHandler} {db : Store} {d : String}
    {wl : Option (List (List String))} {da : Bool} {e : ApiError}
    (he : h.handle_delete db d wl da = .error e) : e = forbiddenErr ∨ errHasReason e = true := by
  cases hr : h.handle_read db d with
  | error e1 =>
    simp [DataHandler.handle_delete, hr, bind, Except.bind] at he
    exact he ▸ handle_read_error_shape hr
  | ok u =>
    cases u
    simp [DataHandler.handle_delete, hr, bind, Except.bind] at he
    split at he
    · cases he
      exact Or.inr (by decide)
    · exact Or.inr (handle_where_error_shape he)

lemma handle_update_error_shape {h : DataHandler} {db : Store} {d : String}
    {data : Rec} {wl : Option (List (List String))} {e : ApiError}
    (he : h.handle_update db d data wl = .error e) : e = forbiddenErr ∨ errHasReason e = true := by
  cases hr : h.handle_restrictions d with
  | error e1 =>
    simp [DataHandler.handle_update, hr, bind, Except.bind] at he
    exact Or.inl (he ▸ handle_restrictions_error_shape hr)
  | ok u =>
    cases u
    cases hp : h.handle_permissions d with
    | error e2 =>
      simp [DataHandler.handle_update, hr, hp, bind, Except.bind] at he
      exact Or.inl (he ▸ handle_permissions_error_shape hp)
    | ok u2 =>
      cases u2
      cases hre : h.handle_read db d with
      | error e3 =>
        simp [DataHandler.handle_update, hr, hp, hre, bind, Except.bind] at he
        exact he ▸ handle_read_error_shape hre
      | ok u3 =>
        cases u3
        cases hw : DataHandler.handle_where wl with
        | error e4 =>
          simp [DataHandler.handle_update, hr, hp, hre, hw, bind, Except.bind] at he
          exact Or.inr (he ▸ handle_where_error_shape hw)
        | ok u4 =>
          cases u4
          simp [DataHandler.handle_update, hr, hp, hre, hw, bind, Except.bind] at he
          split at he
          · cases he
            simp [errHasReason, errDetail, unknownColumnErr, String.data_append]
          · cases he

/-- C9 counterexample: the restriction and permission Forbidden errors are
raised with status 401 and no detail at all, so not every guard error carries
a human-readable reason string. -/
theorem C9_counterexample :
    DataHandler.handle_restrictions {} "data" = .error forbiddenErr
    ∧ errDetail forbiddenErr = none
    ∧ DataHandler.handle_permissions ⟨["data"], []⟩ "t1" = .error forbiddenErr := by
  exact ⟨rfl, rfl, rfl⟩

/-- C9 (amended): every error a guard check raises is either the bare
Forbidden 401 (restriction and permission checks, which carry no detail) or
carries a nonempty human-readable reason string (NotFound, AlreadyExists,
MissingFilter, MalformedFilter, UnsupportedOperator, UnknownColumn). -/
theorem C9_guard_errors_amended :
    errDetail forbiddenErr = none
    ∧ (∀ (h : DataHandler) (d : String) (e : ApiError),
        h.handle_restrictions d = .error e → e = forbiddenErr)
    ∧ (∀ (h : DataHandler) (d : String) (e : ApiError),
        h.handle_permissions d = .error e → e = forbiddenErr)
    ∧ (∀ (wl : Option (List (List String))) (e : ApiError),
        DataHandler.handle_where wl = .error e → errHasReason e = true)
    ∧ (∀ (h : DataHandler) (db : Store) (d : String) (e : ApiError),
        h.handle_read db d = .error e → e = forbiddenErr ∨ errHasReason e = true)
    ∧ (∀ (h : DataHandler) (db : Store) (d : String) (e : ApiError),
        h.handle_write db d = .error e → e = forbiddenErr ∨ errHasReason e = true)
    ∧ (∀ (h : DataHandler) (db : Store) (d : String) (wl : Option (List (List String)))
        (da : Bool) (e : ApiError),
        h.handle_delete db d wl da = .error e → e = forbiddenErr ∨ errHasReason e = true)
    ∧ (∀ (h : DataHandler) (db : Store) (d : String) (data : Rec)
        (wl : Option (List (List String))) (e : ApiError),
        h.handle_update db d data wl = .error e → e = forbiddenErr ∨ errHasReason e = true) := by
  exact ⟨rfl,
    fun _ _ _ => handle_restrictions_error_shape,
    fun _ _ _ => handle_permissions_error_shape,
    fun _ _ => handle_where_error_shape,
    fun _ _ _ _ => handle_read_error_shape,
    fun _ _ _ _ => handle_write_error_shape,
    fun _ _ _ _ _ _ => handle_delete_error_shape,
    fun _ _ _ _ _ _ => handle_update_error_shape⟩

/-- C9 witness: the amended classification applied to concrete guard errors. -/
theorem C9_guard_errors_amended_witness :
    (forbiddenErr = forbiddenErr ∨ errHasReason forbiddenErr = true)
    ∧ (notFoundErr = forbiddenErr ∨ errHasReason notFoundErr = true)
    ∧ errHasReason malformedWhereErr = true := by
  refine ⟨?_, ?_, ?_⟩
  · exact C9_guard_errors_amended.2.2.2.2.1 {} [] "data" forbiddenErr rfl
  · exact C9_guard_errors_amended.2.2.2.2.1 ⟨[], []⟩ [] "t1" notFoundErr rfl
  · exact C9_guard_errors_amended.2.2.2.1 (some [["a", "="]]) malformedWhereErr rfl

end MsdssDataApi
